import Mathlib

/-!
Shallow embedding of the watch scheduling and auto-hold engine of the
price-monitor page (`PriceMonitor` component) and of the background
`check-flight-prices` edge function.

Conventions used throughout:
* Timestamps are epoch milliseconds, modelled as `Int` (`Date.now()` and
  `new Date(s).getTime()`).
* A JS `number | null | undefined` price field is `Option Int`; JS truthiness
  of a number (`null`, `undefined` and `0` are falsy) is `truthyPrice`.
* A JS string field that may be `undefined` is `Option String`; truthiness
  (`undefined` and `""` falsy) is `truthyStr`.
* `parseInt(s)` of a provider fare string is modelled by carrying the parsed
  value directly: an option's fare is `Option Int`, `none` meaning the field
  was absent.  `parseInt(x?.giá_vé || "0")` is `fare.getD 0` and
  `parseInt(x?.giá_vé || "999999999")` is `fare.getD 999999999`.
* Date strings in ISO form compare lexicographically exactly as
  chronologically, so form dates are modelled as `Option Nat`
  (`none` = empty input).
* Network effects are parameters: a fetch outcome is a `FetchResult` value,
  the reservation-status collaborator's answer is a `PnrStatusResp` value,
  and the reservation-creation collaborator's success is a `Bool`.
-/

namespace AeroTicketing

/-- One passenger row of a watch's manifest (`PassengerWithType`); the engine
only ever inspects the manifest through its length, the category flags are
kept for the record shape. -/
structure Passenger where
  isAdult : Bool
  hasInfant : Bool
deriving DecidableEq, Repr

/-- One VNA leg of a watch (`FlightSegment`). -/
structure Segment where
  departure_airport : String
  arrival_airport : String
  departure_date : String
  departure_time : Option String
deriving DecidableEq, Repr

/-- A monitored itinerary (`MonitoredFlight`), restricted to the fields the
scheduling and auto-hold engine reads. -/
structure MonitoredFlight where
  id : String
  airline : String
  departure_time : Option String
  return_time : Option String
  is_round_trip : Bool
  segments : List Segment
  current_price : Option Int
  last_checked_at : Option Int
  check_interval_minutes : Nat
  is_active : Bool
  auto_hold_enabled : Bool
  passengers : Option (List Passenger)
  pnr : Option String
deriving DecidableEq, Repr

/-- One provider result row, normalized over both providers: the fields read
by the engine are `chiều_đi.giờ_cất_cánh` (`depTime`),
`chiều_về.giờ_cất_cánh` (`retTime`), `thông_tin_chung.giá_vé` parsed
(`fare`), and the booking keys of the two legs. -/
structure FlightOption where
  depTime : Option String
  retTime : Option String
  fare : Option Int
  bookingKeyDep : Option String
  bookingKeyRet : Option String
deriving DecidableEq, Repr

/-- Outcome of the provider fetch as seen by the handler: a transport-level
failure (`!response.ok`, or the fetch throwing) or a parsed `data.body`
list (which may be empty). -/
inductive FetchResult where
  | transportError
  | ok (body : List FlightOption)
deriving DecidableEq, Repr

/-- The single user-visible outcome of a check cycle (toast / sound /
Telegram message), abstracted to its kind; `silent` is an automatic cycle
whose non-actionable outcome is suppressed, `holdFlow` means the cycle
handed over to the auto-hold orchestrator before any price toast. -/
inductive NotifKind where
  | checkFailed
  | priceDecreased
  | priceIncreased
  | priceUnchanged
  | firstPrice
  | holdFlow
  | silent
deriving DecidableEq, Repr

/-- What a completed check cycle wrote and did: whether `last_checked_at`
was written, the value written to `current_price` (`none` = left untouched),
whether the booking keys were written, the notification kind, and whether
the auto-hold orchestrator was invoked. -/
structure CycleOutcome where
  lastCheckedUpdated : Bool
  newCurrentPrice : Option Int
  bookingKeysWritten : Bool
  notification : NotifKind
  autoHoldInvoked : Bool
deriving DecidableEq, Repr

/-- JS truthiness of a nullable number: `null`/`undefined` and `0` are falsy. -/
def truthyPrice : Option Int → Bool
  | none => false
  | some p => decide (p ≠ 0)

/-- JS truthiness of a nullable string: `undefined` and `""` are falsy. -/
def truthyStr : Option String → Bool
  | none => false
  | some s => decide (s ≠ "")

/-- The guard `flight.passengers && flight.passengers.length > 0`. -/
def passengersNonEmpty (f : MonitoredFlight) : Bool :=
  match f.passengers with
  | none => false
  | some l => decide (0 < l.length)

/-- Fare of a result row with the cheapest-search fallback:
`parseInt(x["thông_tin_chung"]?.giá_vé || "999999999")`. -/
def fareD (o : FlightOption) : Int :=
  o.fare.getD 999999999

/-- Fare of a result row with the price-extraction fallback:
`parseInt(x["thông_tin_chung"]?.giá_vé || "0")`. -/
def farePrice (o : FlightOption) : Int :=
  o.fare.getD 0

/-- The VJ handler's time-filter trigger:
`flight.departure_time || (flight.is_round_trip && flight.return_time)`. -/
def vjTimed (f : MonitoredFlight) : Bool :=
  f.departure_time.isSome || (f.is_round_trip && f.return_time.isSome)

/-- The VJ handler's per-result time predicate: `departureMatch && returnMatch`. -/
def vjTimeMatch (f : MonitoredFlight) (o : FlightOption) : Bool :=
  (match f.departure_time with
   | some t => o.depTime == some t
   | none => true) &&
  (if f.is_round_trip then
     match f.return_time with
     | some t => o.retTime == some t
     | none => true
   else true)

/-- Result selection of the VJ handler (`handleManualCheck`, lines 568–592):
with a time filter, keep the exact-time matches and take the first; with no
time filter, `reduce` to the row with the smallest fallback fare starting
from `data.body[0]`. -/
def selectVJ (f : MonitoredFlight) (body : List FlightOption) : Option FlightOption :=
  if vjTimed f then
    (body.filter (fun o => vjTimeMatch f o)).head?
  else
    match body with
    | [] => none
    | h :: _ =>
      some (body.foldl (fun cheapest current =>
        if fareD current < fareD cheapest then current else cheapest) h)

/-- First disjunct of the VJ auto-hold condition:
`oldPrice && oldPrice > 0 && newPrice < oldPrice`. -/
def vjDropOnStored : Option Int → Int → Bool
  | some p, newP => decide (p ≠ 0) && decide (0 < p) && decide (newP < p)
  | none, _ => false

/-- Second disjunct of the VJ auto-hold condition:
`(!oldPrice || oldPrice === 0) && newPrice > 0`. -/
def vjFirstOrZero : Option Int → Int → Bool
  | some p, newP => decide (p = 0) && decide (0 < newP)
  | none, newP => decide (0 < newP)

/-- The VJ handler's toast selection after a successful price extraction:
on a non-null old price the sign of `newPrice - oldPrice` picks
decreased/increased/unchanged (increase and no-change are suppressed on
automatic cycles); with no old price a price-updated toast is shown on
manual cycles only. -/
def vjNotify (oldPrice : Option Int) (newPrice : Int) (isAutomatic : Bool) : NotifKind :=
  match oldPrice with
  | some p =>
    if newPrice - p < 0 then NotifKind.priceDecreased
    else if 0 < newPrice - p then
      (if isAutomatic then NotifKind.silent else NotifKind.priceIncreased)
    else
      (if isAutomatic then NotifKind.silent else NotifKind.priceUnchanged)
  | none => if isAutomatic then NotifKind.silent else NotifKind.firstPrice

/-- VJ branch of `handleManualCheck` (part_002 lines 498–710) as a function
of the fetch outcome.  A transport failure throws into the outer catch
(error toast, nothing written); an empty `data.body` shows a not-found
toast and returns without writing; a failed time match writes only
`last_checked_at`; a selected result writes price, booking keys and
`last_checked_at`, then either hands over to the auto-hold orchestrator or
shows the comparison toast. -/
def handleManualCheckVJ (f : MonitoredFlight) (fetch : FetchResult)
    (isAutomatic : Bool) : CycleOutcome :=
  match fetch with
  | FetchResult.transportError =>
    { lastCheckedUpdated := false, newCurrentPrice := none, bookingKeysWritten := false,
      notification := NotifKind.checkFailed, autoHoldInvoked := false }
  | FetchResult.ok body =>
    if body.isEmpty then
      { lastCheckedUpdated := false, newCurrentPrice := none, bookingKeysWritten := false,
        notification := NotifKind.checkFailed, autoHoldInvoked := false }
    else
      match selectVJ f body with
      | none =>
        { lastCheckedUpdated := true, newCurrentPrice := none, bookingKeysWritten := false,
          notification := NotifKind.checkFailed, autoHoldInvoked := false }
      | some m =>
        if (f.auto_hold_enabled &&
              (vjDropOnStored f.current_price (farePrice m) ||
                vjFirstOrZero f.current_price (farePrice m))) &&
            truthyStr m.bookingKeyDep && passengersNonEmpty f then
          { lastCheckedUpdated := true, newCurrentPrice := some (farePrice m),
            bookingKeysWritten := true, notification := NotifKind.holdFlow,
            autoHoldInvoked := true }
        else
          { lastCheckedUpdated := true, newCurrentPrice := some (farePrice m),
            bookingKeysWritten := true,
            notification := vjNotify f.current_price (farePrice m) isAutomatic,
            autoHoldInvoked := false }

/-- `handleCheckVNAPrice` (part_002 lines 712–925) as a function of the
fetch outcome.  An empty segments list throws into the handler's own catch
before anything is written; an empty `data.body` and a price that parses to
`0` both write only `last_checked_at` and show a failure toast; a positive
price with a stored positive old price writes only `last_checked_at` and
classifies by the sign of the difference (the advisory VNA quote never
overwrites `current_price`), invoking the auto-hold orchestrator on a drop
when enabled with a non-empty manifest; otherwise (first observation:
stored price null or not positive) `current_price` is written from the
quote. -/
def handleCheckVNAPrice (f : MonitoredFlight) (fetch : FetchResult)
    (isAutomatic : Bool) : CycleOutcome :=
  if f.segments.isEmpty then
    { lastCheckedUpdated := false, newCurrentPrice := none, bookingKeysWritten := false,
      notification := NotifKind.checkFailed, autoHoldInvoked := false }
  else
    match fetch with
    | FetchResult.transportError =>
      { lastCheckedUpdated := false, newCurrentPrice := none, bookingKeysWritten := false,
        notification := NotifKind.checkFailed, autoHoldInvoked := false }
    | FetchResult.ok [] =>
      { lastCheckedUpdated := true, newCurrentPrice := none, bookingKeysWritten := false,
        notification := NotifKind.checkFailed, autoHoldInvoked := false }
    | FetchResult.ok (m :: _) =>
      if farePrice m = 0 then
        { lastCheckedUpdated := true, newCurrentPrice := none, bookingKeysWritten := false,
          notification := NotifKind.checkFailed, autoHoldInvoked := false }
      else
        match f.current_price with
        | some p =>
          if 0 < p then
            if farePrice m - p < 0 then
              { lastCheckedUpdated := true, newCurrentPrice := none,
                bookingKeysWritten := false, notification := NotifKind.priceDecreased,
                autoHoldInvoked := f.auto_hold_enabled && passengersNonEmpty f }
            else if 0 < farePrice m - p then
              { lastCheckedUpdated := true, newCurrentPrice := none,
                bookingKeysWritten := false,
                notification := if isAutomatic then NotifKind.silent else NotifKind.priceIncreased,
                autoHoldInvoked := false }
            else
              { lastCheckedUpdated := true, newCurrentPrice := none,
                bookingKeysWritten := false,
                notification := if isAutomatic then NotifKind.silent else NotifKind.priceUnchanged,
                autoHoldInvoked := false }
          else
            { lastCheckedUpdated := true, newCurrentPrice := some (farePrice m),
              bookingKeysWritten := false,
              notification := if isAutomatic then NotifKind.silent else NotifKind.firstPrice,
              autoHoldInvoked := false }
        | none =>
          { lastCheckedUpdated := true, newCurrentPrice := some (farePrice m),
            bookingKeysWritten := false,
            notification := if isAutomatic then NotifKind.silent else NotifKind.firstPrice,
            autoHoldInvoked := false }

/-- Top of `handleManualCheck`: VNA flights are delegated, any airline other
than VJ and VNA gets an unsupported toast and nothing is written. -/
def handleManualCheck (f : MonitoredFlight) (fetch : FetchResult)
    (isAutomatic : Bool) : CycleOutcome :=
  if f.airline = "VNA" then handleCheckVNAPrice f fetch isAutomatic
  else if f.airline = "VJ" then handleManualCheckVJ f fetch isAutomatic
  else
    { lastCheckedUpdated := false, newCurrentPrice := none, bookingKeysWritten := false,
      notification := NotifKind.checkFailed, autoHoldInvoked := false }

/-- Time predicate of the background edge function's `checkVJPrice`
(`check-flight-prices/index.ts` lines 70–75): only the departure time is
filtered, the return time is never consulted. -/
def ckTimeMatch (f : MonitoredFlight) (o : FlightOption) : Bool :=
  match f.departure_time with
  | some t => o.depTime == some t
  | none => true

/-- `checkVJPrice` of the background edge function as a function of the
fetch outcome: `null` on transport failure, on an empty body and on an
empty time filter, otherwise `Math.min` over the parsed fares of the
remaining rows. -/
def checkVJPrice (f : MonitoredFlight) (resp : FetchResult) : Option Int :=
  match resp with
  | FetchResult.transportError => none
  | FetchResult.ok body =>
    if body.isEmpty then none
    else
      match body.filter (fun o => ckTimeMatch f o) with
      | [] => none
      | h :: t => some (t.foldl (fun m o => min m (farePrice o)) (farePrice h))

/-- A watch's check interval in milliseconds:
`check_interval_minutes * 60 * 1000`. -/
def intervalMs (intervalMinutes : Nat) : Int :=
  (intervalMinutes : Int) * 60 * 1000

/-- `calculateProgress` of the monitor page: `0` before the first check,
otherwise the elapsed share of the interval as a percentage capped at `100`. -/
def calculateProgress (lastChecked : Option Int) (intervalMinutes : Nat)
    (now : Int) : ℚ :=
  match lastChecked with
  | none => 0
  | some t => min (((now - t : Int) : ℚ) / ((intervalMs intervalMinutes : Int) : ℚ) * 100) 100

/-- The page-entry effect's due test (part_002 lines 206–222): active and
(never checked, or progress at 100%). -/
def entryShouldCheck (f : MonitoredFlight) (now : Int) : Bool :=
  f.is_active &&
    (f.last_checked_at.isNone ||
      decide (100 ≤ calculateProgress f.last_checked_at f.check_interval_minutes now))

/-- The per-second tick's due test (part_002 lines 181–203): active, no check
recorded in flight, checked at least once before, and progress at 100%. -/
def tickSelects (f : MonitoredFlight) (now : Int)
    (checkingFlightId : Option String) : Bool :=
  f.is_active && checkingFlightId.isNone && f.last_checked_at.isSome &&
    decide (100 ≤ calculateProgress f.last_checked_at f.check_interval_minutes now)

/-- The background edge function's due test (index.ts lines 174–193): the
query keeps only `is_active = true` rows and a row is skipped exactly when
it has been checked before and the elapsed time is below the interval. -/
def edgeSelects (f : MonitoredFlight) (now : Int) : Bool :=
  f.is_active &&
    (match f.last_checked_at with
     | none => true
     | some t => decide (intervalMs f.check_interval_minutes ≤ now - t))

/-- Scheduler state relevant to the in-flight guard: the single
`checkingFlightId` slot and the multiset (as a list) of watch ids whose
check cycles are currently running. -/
structure SchedState where
  checkingFlightId : Option String
  inFlight : List String
deriving DecidableEq, Repr

/-- One scheduler event.  A manual trigger for watch `w` is possible unless
the refresh button is disabled, i.e. unless `checkingFlightId === w`
(part_002 line 2295); starting sets the slot to `w`.  An automatic trigger
(tick or page entry) requires the slot to be empty (`!checkingFlightId`,
lines 190 and 207).  A finishing cycle's `finally` clears the slot
unconditionally (line 705). -/
inductive SchedStep : SchedState → SchedState → Prop where
  | manualStart (w : String) (s : SchedState)
      (h : s.checkingFlightId ≠ some w) :
      SchedStep s { checkingFlightId := some w, inFlight := w :: s.inFlight }
  | autoStart (w : String) (s : SchedState)
      (h : s.checkingFlightId = none) :
      SchedStep s { checkingFlightId := some w, inFlight := w :: s.inFlight }
  | finish (w : String) (s : SchedState)
      (h : w ∈ s.inFlight) :
      SchedStep s { checkingFlightId := none, inFlight := s.inFlight.erase w }

/-- The scheduler events with only automatic triggers (no manual button). -/
inductive AutoSchedStep : SchedState → SchedState → Prop where
  | autoStart (w : String) (s : SchedState)
      (h : s.checkingFlightId = none) :
      AutoSchedStep s { checkingFlightId := some w, inFlight := w :: s.inFlight }
  | finish (w : String) (s : SchedState)
      (h : w ∈ s.inFlight) :
      AutoSchedStep s { checkingFlightId := none, inFlight := s.inFlight.erase w }

/-- The scheduler's initial state: no slot, no cycle running. -/
def schedInit : SchedState :=
  { checkingFlightId := none, inFlight := [] }

/-- Answer of the reservation-status collaborator
(`/vj/checkpnr`): the call may throw, return a non-OK HTTP status, or
return a payload whose `paymentstatus` flag says whether the prior
reservation is finalized. -/
inductive PnrStatusResp where
  | transportFail
  | httpFail
  | ok (paymentstatus : Bool)
deriving DecidableEq, Repr

/-- What an auto-hold attempt did: how many times the reservation-creation
collaborator was called, whether the watch was deleted, and how many
skipped-because-already-issued notifications were shown. -/
structure HoldOutcome where
  creationCalls : Nat
  watchDeleted : Bool
  skipNotifs : Nat
deriving DecidableEq, Repr

/-- `handleAutoHoldTicket` (part_002 lines 1184–1391, the VJ orchestrator)
as a function of the collaborators' behavior.  With a prior reservation
code whose status call succeeds and reports `paymentstatus === true`, the
attempt is abandoned: one skip notification, the watch deleted, no creation
call.  A failed or negative status check falls through to the creation
call; on creation success the reservation is persisted and the watch
deleted. -/
def handleAutoHoldTicket (f : MonitoredFlight) (statusResp : PnrStatusResp)
    (creationSucceeds : Bool) : HoldOutcome :=
  if passengersNonEmpty f = false then
    { creationCalls := 0, watchDeleted := false, skipNotifs := 0 }
  else
    match f.pnr with
    | some _ =>
      match statusResp with
      | PnrStatusResp.ok true =>
        { creationCalls := 0, watchDeleted := true, skipNotifs := 1 }
      | _ =>
        { creationCalls := 1, watchDeleted := creationSucceeds, skipNotifs := 0 }
    | none =>
      { creationCalls := 1, watchDeleted := creationSucceeds, skipNotifs := 0 }

set_option linter.unusedVariables false in
/-- `handleAutoHoldVNATicket` (part_002 lines 1036–1182, the VNA
orchestrator) as a function of the collaborators' behavior.  After the
manifest and segments guards it proceeds straight to the
reservation-creation call: the prior reservation code is never checked
against the reservation-status collaborator, so `priorPnrFinalized` (what
that collaborator would answer) is never consulted. -/
def handleAutoHoldVNATicket (f : MonitoredFlight) (priorPnrFinalized : Bool)
    (creationSucceeds : Bool) : HoldOutcome :=
  if passengersNonEmpty f = false then
    { creationCalls := 0, watchDeleted := false, skipNotifs := 0 }
  else if f.segments.isEmpty then
    { creationCalls := 0, watchDeleted := false, skipNotifs := 0 }
  else
    { creationCalls := 1, watchDeleted := creationSucceeds, skipNotifs := 0 }

/-- Outcome of the creation-side entry points (`handleAddFlight`,
`handleImportFromPnr`) up to the point where a record would be inserted. -/
inductive GateResult where
  | refusedLimit
  | refusedValidation
  | proceeds
deriving DecidableEq, Repr

/-- `flights.filter(f => f.is_active).length`. -/
def activeFlightCount (flights : List MonitoredFlight) : Nat :=
  (flights.filter (fun f => f.is_active)).length

/-- `profile?.hold_ticket_quantity || 0`. -/
def maxFlightsOf (holdTicketQuantity : Option Nat) : Nat :=
  holdTicketQuantity.getD 0

/-- The manual-entry form fields `handleAddFlight` validates; dates are in
ISO form, whose lexicographic string order is chronological, so they are
modelled as `Option Nat` with `none` for an empty input. -/
structure AddForm where
  departureAirport : String
  arrivalAirport : String
  departureDate : Option Nat
  isRoundTrip : Bool
  returnDate : Option Nat
deriving DecidableEq, Repr

/-- `handleAddFlight` (part_002 lines 259–453) up to the insert: the active
count is checked against the profile limit first, then the itinerary fields
are validated (identically for both airlines).  `GateResult.proceeds` is
the path that inserts the record. -/
def handleAddFlight (flights : List MonitoredFlight)
    (holdTicketQuantity : Option Nat) (today : Nat) (form : AddForm) : GateResult :=
  if maxFlightsOf holdTicketQuantity ≤ activeFlightCount flights then
    GateResult.refusedLimit
  else if form.departureAirport = "" || form.arrivalAirport = "" ||
      form.departureDate.isNone then
    GateResult.refusedValidation
  else if form.departureDate.getD 0 ≤ today then
    GateResult.refusedValidation
  else if form.isRoundTrip && form.returnDate.isNone then
    GateResult.refusedValidation
  else if form.isRoundTrip && form.returnDate.getD 0 ≤ form.departureDate.getD 0 then
    GateResult.refusedValidation
  else
    GateResult.proceeds

/-- `handleImportFromPnr` (part_002 lines 1427–1448) up to the provider
lookup: the PNR must be six characters, then the active count is checked
against the profile limit; `GateResult.proceeds` is the path that goes on
to fetch the reservation and insert a watch. -/
def handleImportFromPnr (pnrCode : String) (flights : List MonitoredFlight)
    (holdTicketQuantity : Option Nat) : GateResult :=
  if pnrCode.length ≠ 6 then
    GateResult.refusedValidation
  else if maxFlightsOf holdTicketQuantity ≤ activeFlightCount flights then
    GateResult.refusedLimit
  else
    GateResult.proceeds

/-! Concrete fixtures used by witnesses and counterexamples. -/

/-- A baseline one-way VJ watch with nothing optional set. -/
def baseFlight : MonitoredFlight :=
  { id := "f1", airline := "VJ", departure_time := none, return_time := none,
    is_round_trip := false, segments := [], current_price := none,
    last_checked_at := none, check_interval_minutes := 5, is_active := true,
    auto_hold_enabled := false, passengers := none, pnr := none }

/-- A single adult passenger row. -/
def paxAdult : Passenger :=
  { isAdult := true, hasInfant := false }

/-- A concrete VNA leg. -/
def seg1 : Segment :=
  { departure_airport := "ICN", arrival_airport := "SGN",
    departure_date := "2026-03-27", departure_time := none }

/-- A provider result row with a given parsed fare and booking key. -/
def mkOption (fare : Option Int) (depTime : Option String)
    (bookingKeyDep : Option String) : FlightOption :=
  { depTime := depTime, retTime := none, fare := fare,
    bookingKeyDep := bookingKeyDep, bookingKeyRet := none }

/-- A VNA watch with a stored price of 100. -/
def vnaFlight100 : MonitoredFlight :=
  { baseFlight with
    airline := "VNA",
    segments := [seg1],
    current_price := some 100 }

/-- A VNA watch that has never observed a price. -/
def vnaFlightFresh : MonitoredFlight :=
  { baseFlight with airline := "VNA", segments := [seg1] }

/-- A quote of 90 with no time and no booking key. -/
def o90 : FlightOption := mkOption (some 90) none none

/-- A VJ watch armed for auto-hold that has never observed a price. -/
def c3Flight : MonitoredFlight :=
  { baseFlight with
    auto_hold_enabled := true,
    passengers := some [paxAdult] }

/-- A VJ watch with a manifest but auto-hold disabled and no stored price. -/
def c3NoHoldFlight : MonitoredFlight :=
  { baseFlight with passengers := some [paxAdult] }

/-- A quote of 90 carrying a departure booking key. -/
def o90bk : FlightOption := mkOption (some 90) none (some "BKDEP")

/-- A VNA watch with stored price 100, auto-hold armed, a manifest, and a
prior reservation code. -/
def c4Flight : MonitoredFlight :=
  { baseFlight with
    airline := "VNA",
    segments := [seg1],
    current_price := some 100,
    auto_hold_enabled := true,
    passengers := some [paxAdult],
    pnr := some "ABC123" }

/-! Helper lemmas. -/

/-- Semantic reading of the first VJ auto-hold disjunct. -/
theorem vjDropOnStored_eq_true (o : Option Int) (n : Int) :
    vjDropOnStored o n = true ↔ ∃ p, o = some p ∧ 0 < p ∧ n < p := by
  cases o with
  | none => simp [vjDropOnStored]
  | some p =>
    simp only [vjDropOnStored, Bool.and_eq_true, decide_eq_true_eq,
      Option.some.injEq]
    constructor
    · rintro ⟨⟨hne, hpos⟩, hlt⟩
      exact ⟨p, rfl, hpos, hlt⟩
    · rintro ⟨p', hp', hpos, hlt⟩
      cases hp'
      exact ⟨⟨by omega, hpos⟩, hlt⟩

/-- Semantic reading of the second VJ auto-hold disjunct. -/
theorem vjFirstOrZero_eq_true (o : Option Int) (n : Int) :
    vjFirstOrZero o n = true ↔ (o = none ∨ o = some 0) ∧ 0 < n := by
  cases o with
  | none => simp [vjFirstOrZero]
  | some p => simp [vjFirstOrZero]

/-! Claim theorems. -/

/-- C9: both `handleAddFlight` and `handleImportFromPnr` refuse (no record
inserted) whenever the number of currently active watches is at least the
profile limit `hold_ticket_quantity` (defaulting to `0` when unset). -/
theorem C9_creation_limit (flights : List MonitoredFlight)
    (holdQ : Option Nat) (today : Nat) (form : AddForm) (pnr : String)
    (hlim : maxFlightsOf holdQ ≤ activeFlightCount flights) :
    handleAddFlight flights holdQ today form = GateResult.refusedLimit ∧
    handleImportFromPnr pnr flights holdQ ≠ GateResult.proceeds := by
  constructor
  · simp [handleAddFlight, hlim]
  · unfold handleImportFromPnr
    split
    · simp
    · simp [hlim]

/-- C9 witness: with two active watches and a limit of two, both entry
points refuse. -/
theorem C9_creation_limit_witness :
    maxFlightsOf (some 2) ≤ activeFlightCount [baseFlight, baseFlight] ∧
    handleAddFlight [baseFlight, baseFlight] (some 2) 20260101
      { departureAirport := "ICN", arrivalAirport := "SGN",
        departureDate := some 20260327, isRoundTrip := false,
        returnDate := none } = GateResult.refusedLimit ∧
    handleImportFromPnr "ABC123" [baseFlight, baseFlight] (some 2) ≠
      GateResult.proceeds := by
  refine ⟨by decide, ?_⟩
  exact C9_creation_limit [baseFlight, baseFlight] (some 2) 20260101
    { departureAirport := "ICN", arrivalAirport := "SGN",
      departureDate := some 20260327, isRoundTrip := false, returnDate := none }
    "ABC123" (by decide)

/-- C10: a VNA check whose fetched price parses to `0` writes only
`last_checked_at`, leaves `current_price` untouched, performs no
comparison, shows a check-failed notification, and never invokes the
auto-hold orchestrator. -/
theorem C10_vna_zero_price (f : MonitoredFlight) (m : FlightOption)
    (rest : List FlightOption) (isAuto : Bool)
    (hseg : f.segments ≠ []) (hz : farePrice m = 0) :
    handleCheckVNAPrice f (FetchResult.ok (m :: rest)) isAuto =
      { lastCheckedUpdated := true, newCurrentPrice := none,
        bookingKeysWritten := false, notification := NotifKind.checkFailed,
        autoHoldInvoked := false } := by
  obtain ⟨s, ss, hs⟩ := List.exists_cons_of_ne_nil hseg
  simp [handleCheckVNAPrice, hs, hz]

/-- C10 witness: a concrete VNA watch and a zero-fare quote. -/
theorem C10_vna_zero_price_witness :
    ({ baseFlight with airline := "VNA", segments := [seg1] } :
        MonitoredFlight).segments ≠ [] ∧
    farePrice (mkOption (some 0) none none) = 0 ∧
    handleCheckVNAPrice { baseFlight with airline := "VNA", segments := [seg1] }
      (FetchResult.ok [mkOption (some 0) none none]) false =
      { lastCheckedUpdated := true, newCurrentPrice := none,
        bookingKeysWritten := false, notification := NotifKind.checkFailed,
        autoHoldInvoked := false } := by
  refine ⟨by simp [baseFlight, seg1], rfl, ?_⟩
  exact C10_vna_zero_price _ _ _ _ (by simp [baseFlight, seg1]) rfl

/-- C2: a VNA check against a stored positive `current_price` never
overwrites it (only `last_checked_at` is written), and `current_price` is
written from the quote only on the very first observation — stored price
null or not positive — and only with a non-zero quoted price. -/
theorem C2_vna_never_overwrites (f : MonitoredFlight) (fetch : FetchResult)
    (isAuto : Bool) :
    (∀ p : Int, f.current_price = some p → 0 < p →
      (handleCheckVNAPrice f fetch isAuto).newCurrentPrice = none) ∧
    (∀ q : Int, (handleCheckVNAPrice f fetch isAuto).newCurrentPrice = some q →
      (f.current_price = none ∨ ∃ r, f.current_price = some r ∧ r ≤ 0) ∧
      ∃ m rest, fetch = FetchResult.ok (m :: rest) ∧ q = farePrice m ∧ q ≠ 0) := by
  constructor
  · intro p hp hpos
    unfold handleCheckVNAPrice
    split
    · rfl
    · cases fetch with
      | transportError => rfl
      | ok body =>
        cases body with
        | nil => rfl
        | cons m rest =>
          by_cases hz : farePrice m = 0
          · simp [hz]
          · simp only [hz, if_false, hp]
            rw [if_pos hpos]
            split
            · rfl
            · split <;> rfl
  · intro q hq
    unfold handleCheckVNAPrice at hq
    rw [apply_ite CycleOutcome.newCurrentPrice] at hq
    by_cases hseg : f.segments.isEmpty
    · rw [if_pos hseg] at hq; exact absurd hq (by simp)
    · rw [if_neg hseg] at hq
      cases fetch with
      | transportError => exact absurd hq (by simp)
      | ok body =>
        cases body with
        | nil => exact absurd hq (by simp)
        | cons m rest =>
          by_cases hz : farePrice m = 0
          · simp only [hz, if_true, if_pos] at hq
            exact absurd hq (by simp)
          · simp only [hz, if_false] at hq
            cases hcp : f.current_price with
            | none =>
              simp only [hcp] at hq
              have hqm : farePrice m = q := by simpa using hq
              exact ⟨Or.inl rfl, m, rest, rfl, hqm.symm,
                fun h0 => hz (by omega)⟩
            | some r =>
              simp only [hcp] at hq
              by_cases hr : 0 < r
              · rw [if_pos hr] at hq
                rw [apply_ite CycleOutcome.newCurrentPrice] at hq
                revert hq
                split
                · intro hq; exact absurd hq (by simp)
                · rw [apply_ite CycleOutcome.newCurrentPrice]
                  split <;> (intro hq; exact absurd hq (by simp))
              · rw [if_neg hr] at hq
                have hqm : farePrice m = q := by simpa using hq
                exact ⟨Or.inr ⟨r, rfl, by omega⟩, m, rest, rfl, hqm.symm,
                  fun h0 => hz (by omega)⟩

/-- C2 witness: with stored price 100 a cheaper VNA quote of 90 does not
overwrite the stored price; with no stored price the quote of 90 is
written. -/
theorem C2_vna_never_overwrites_witness :
    (handleCheckVNAPrice vnaFlight100
        (FetchResult.ok [o90]) false).newCurrentPrice = none ∧
    ((vnaFlightFresh.current_price = none ∨
        ∃ r, vnaFlightFresh.current_price = some r ∧ r ≤ 0) ∧
      ∃ m rest,
        FetchResult.ok [o90] = FetchResult.ok (m :: rest) ∧
        (90 : Int) = farePrice m ∧ (90 : Int) ≠ 0) := by
  constructor
  · exact (C2_vna_never_overwrites vnaFlight100 (FetchResult.ok [o90]) false).1
      100 (by rfl) (by norm_num)
  · exact (C2_vna_never_overwrites vnaFlightFresh (FetchResult.ok [o90]) false).2
      90 (by rfl)

/-- C1 counterexample: a VJ check whose provider returns an empty result
list (`EmptyResult`) terminates without writing `last_checked_at`, contrary
to the claim that every `FetchError` kind still advances it. -/
theorem C1_counterexample :
    (handleManualCheckVJ baseFlight (FetchResult.ok []) false).lastCheckedUpdated
      = false ∧
    (handleManualCheckVJ baseFlight FetchResult.transportError false).lastCheckedUpdated
      = false := ⟨rfl, rfl⟩

/-- C1 amended: `last_checked_at` advances on every completed fetch with a
parsed body — including the no-time-match failure on VJ and the
empty-result and zero-price failures on VNA — but it does not advance on a
transport-level failure in either handler, nor on an empty provider result
in the VJ handler. -/
theorem C1_lastChecked_amended (f : MonitoredFlight) (body : List FlightOption)
    (isAuto : Bool) :
    ((handleManualCheckVJ f FetchResult.transportError isAuto).lastCheckedUpdated
        = false) ∧
    ((handleManualCheckVJ f (FetchResult.ok []) isAuto).lastCheckedUpdated
        = false) ∧
    (body ≠ [] →
      (handleManualCheckVJ f (FetchResult.ok body) isAuto).lastCheckedUpdated
        = true) ∧
    ((handleCheckVNAPrice f FetchResult.transportError isAuto).lastCheckedUpdated
        = false) ∧
    (f.segments ≠ [] →
      (handleCheckVNAPrice f (FetchResult.ok body) isAuto).lastCheckedUpdated
        = true) := by
  refine ⟨rfl, rfl, ?_, ?_, ?_⟩
  · intro hne
    unfold handleManualCheckVJ
    simp only [List.isEmpty_eq_true, hne, if_false]
    cases hsel : selectVJ f body with
    | none => simp [hsel]
    | some m => simp only [hsel]; split <;> rfl
  · unfold handleCheckVNAPrice
    split <;> rfl
  · intro hseg
    obtain ⟨s, ss, hs⟩ := List.exists_cons_of_ne_nil hseg
    unfold handleCheckVNAPrice
    simp only [hs, List.isEmpty_cons, if_false, Bool.false_eq_true]
    cases body with
    | nil => rfl
    | cons m rest =>
      by_cases hz : farePrice m = 0
      · simp [hz]
      · simp only [hz, if_false]
        split
        · split
          · split
            · rfl
            · split <;> rfl
          · rfl
        · rfl

/-- C1 amended witness: concrete cycles exercising each clause. -/
theorem C1_lastChecked_amended_witness :
    (([mkOption (some 90) none none] : List FlightOption) ≠ [] ∧
      (handleManualCheckVJ baseFlight
        (FetchResult.ok [mkOption (some 90) none none]) false).lastCheckedUpdated
        = true) ∧
    (({ baseFlight with airline := "VNA", segments := [seg1] } :
        MonitoredFlight).segments ≠ [] ∧
      (handleCheckVNAPrice { baseFlight with airline := "VNA", segments := [seg1] }
        (FetchResult.ok [mkOption (some 90) none none]) false).lastCheckedUpdated
        = true) := by
  have h1 := C1_lastChecked_amended baseFlight [mkOption (some 90) none none] false
  have h2 := C1_lastChecked_amended
    { baseFlight with airline := "VNA", segments := [seg1] }
    [mkOption (some 90) none none] false
  refine ⟨⟨by simp, h1.2.2.1 (by simp)⟩, ⟨by simp [baseFlight, seg1], ?_⟩⟩
  exact h2.2.2.2.2 (by simp [baseFlight, seg1])

/-- C3 counterexample: a first observation (stored price null) with
auto-hold enabled, a manifest and a booking key invokes the auto-hold
orchestrator, contrary to the claim that the orchestrator runs only on a
"decreased" classification against a non-null previous price. -/
theorem C3_counterexample :
    c3Flight.current_price = none ∧
    (handleManualCheckVJ c3Flight (FetchResult.ok [o90bk]) false).autoHoldInvoked
      = true := by
  exact ⟨rfl, by decide⟩

/-- C3 amended: the VJ handler invokes the auto-hold orchestrator exactly
when auto-hold is enabled, the selected quote carries a usable departure
booking key, the manifest is non-empty, and either the new price is
strictly below a positive stored price or the stored price is null or zero
and the new price is positive; a first observation that does not invoke the
orchestrator stores the price and, on a manual trigger, shows a
price-updated toast. -/
theorem C3_vj_autohold_condition (f : MonitoredFlight)
    (body : List FlightOption) (m : FlightOption) (isAuto : Bool)
    (hsel : selectVJ f body = some m) (hne : body ≠ []) :
    ((handleManualCheckVJ f (FetchResult.ok body) isAuto).autoHoldInvoked = true ↔
      (f.auto_hold_enabled = true ∧ truthyStr m.bookingKeyDep = true ∧
        passengersNonEmpty f = true ∧
        ((∃ p, f.current_price = some p ∧ 0 < p ∧ farePrice m < p) ∨
          ((f.current_price = none ∨ f.current_price = some 0) ∧
            0 < farePrice m)))) ∧
    (f.current_price = none →
      (handleManualCheckVJ f (FetchResult.ok body) isAuto).newCurrentPrice
        = some (farePrice m) ∧
      ((handleManualCheckVJ f (FetchResult.ok body) isAuto).autoHoldInvoked
          = false →
        (handleManualCheckVJ f (FetchResult.ok body) isAuto).notification
          = (if isAuto then NotifKind.silent else NotifKind.firstPrice))) := by
  have hbe : body.isEmpty = false := by
    cases body with
    | nil => exact absurd rfl hne
    | cons a l => rfl
  have hchar : ((f.auto_hold_enabled &&
        (vjDropOnStored f.current_price (farePrice m) ||
          vjFirstOrZero f.current_price (farePrice m))) &&
        truthyStr m.bookingKeyDep && passengersNonEmpty f) = true ↔
      (f.auto_hold_enabled = true ∧ truthyStr m.bookingKeyDep = true ∧
        passengersNonEmpty f = true ∧
        ((∃ p, f.current_price = some p ∧ 0 < p ∧ farePrice m < p) ∨
          ((f.current_price = none ∨ f.current_price = some 0) ∧
            0 < farePrice m))) := by
    simp only [Bool.and_eq_true, Bool.or_eq_true, vjDropOnStored_eq_true,
      vjFirstOrZero_eq_true]
    constructor
    · rintro ⟨⟨⟨h1, h2⟩, h3⟩, h4⟩
      exact ⟨h1, h3, h4, h2⟩
    · rintro ⟨h1, h3, h4, h2⟩
      exact ⟨⟨⟨h1, h2⟩, h3⟩, h4⟩
  constructor
  · simp only [handleManualCheckVJ, hbe, Bool.false_eq_true, if_false, hsel]
    split
    · simp only [true_iff]
      next hC => exact hchar.mp hC
    · simp only [Bool.false_eq_true, false_iff]
      next hC => exact fun hr => hC (hchar.mpr hr)
  · intro hnone
    simp only [handleManualCheckVJ, hbe, Bool.false_eq_true, if_false, hsel]
    constructor
    · split <;> rfl
    · split
      · simp
      · intro _
        simp only [hnone, vjNotify]

/-- C3 amended witness: with auto-hold disabled, a first observation stores
the quoted price and shows the price-updated toast on a manual cycle. -/
theorem C3_vj_autohold_condition_witness :
    (handleManualCheckVJ c3NoHoldFlight (FetchResult.ok [o90bk]) false).newCurrentPrice
      = some (farePrice o90bk) ∧
    (handleManualCheckVJ c3NoHoldFlight (FetchResult.ok [o90bk]) false).notification
      = NotifKind.firstPrice := by
  have h := C3_vj_autohold_condition c3NoHoldFlight [o90bk] o90bk false
    (by decide) (by simp)
  have h2 := h.2 rfl
  exact ⟨h2.1, by simpa using h2.2 (by decide)⟩

/-- C4 counterexample: a VNA watch with a prior reservation code that the
status collaborator would report as finalized still reaches the
reservation-creation collaborator once (and, on failure, is neither deleted
nor given a skip notification): the VNA auto-hold path never performs the
prior-reservation check. -/
theorem C4_counterexample :
    c4Flight.pnr = some "ABC123" ∧
    (handleCheckVNAPrice c4Flight (FetchResult.ok [o90]) false).autoHoldInvoked
      = true ∧
    handleAutoHoldVNATicket c4Flight true false =
      { creationCalls := 1, watchDeleted := false, skipNotifs := 0 } := by
  refine ⟨rfl, by decide, by decide⟩

/-- C4 amended: in the VJ orchestrator a prior reservation code reported
finalized abandons the attempt — zero creation calls, watch deleted, one
skip notification; the VNA orchestrator never consults the
reservation-status collaborator and, once its manifest and segments guards
pass, always makes exactly one creation call and never shows a skip
notification. -/
theorem C4_prior_reservation_amended :
    (∀ (f : MonitoredFlight) (c : String) (b : Bool),
      passengersNonEmpty f = true → f.pnr = some c →
      handleAutoHoldTicket f (PnrStatusResp.ok true) b =
        { creationCalls := 0, watchDeleted := true, skipNotifs := 1 }) ∧
    (∀ (f : MonitoredFlight) (finalized b : Bool),
      passengersNonEmpty f = true → f.segments ≠ [] →
      (handleAutoHoldVNATicket f finalized b).creationCalls = 1 ∧
      (handleAutoHoldVNATicket f finalized b).skipNotifs = 0) := by
  constructor
  · intro f c b hpass hpnr
    unfold handleAutoHoldTicket
    simp [hpass, hpnr]
  · intro f finalized b hpass hseg
    obtain ⟨s, ss, hs⟩ := List.exists_cons_of_ne_nil hseg
    unfold handleAutoHoldVNATicket
    simp [hpass, hs]

/-- C4 amended witness: the fixture watch exercises both orchestrators. -/
theorem C4_prior_reservation_amended_witness :
    (passengersNonEmpty c4Flight = true ∧
      handleAutoHoldTicket c4Flight (PnrStatusResp.ok true) false =
        { creationCalls := 0, watchDeleted := true, skipNotifs := 1 }) ∧
    ((handleAutoHoldVNATicket c4Flight true true).creationCalls = 1 ∧
      (handleAutoHoldVNATicket c4Flight true true).skipNotifs = 0) := by
  refine ⟨⟨rfl, ?_⟩, ?_⟩
  · exact C4_prior_reservation_amended.1 c4Flight "ABC123" false rfl rfl
  · exact C4_prior_reservation_amended.2 c4Flight true true rfl
      (by simp [c4Flight, baseFlight])

/-- A VJ watch whose stored price is 90. -/
def vj90Flight : MonitoredFlight :=
  { baseFlight with current_price := some 90 }

/-- A quote of 100 with no time and no booking key. -/
def o100 : FlightOption := mkOption (some 100) none none

/-- C8: replaying a quote whose price equals the unchanged stored price
classifies the cycle as unchanged (silent on automatic triggers) and never
invokes the auto-hold orchestrator, in both the VJ and the VNA handler. -/
theorem C8_equal_price_idempotent (f : MonitoredFlight)
    (body rest : List FlightOption) (m mv : FlightOption) (isAuto : Bool)
    (p : Int) :
    (f.current_price = some p → selectVJ f body = some m → farePrice m = p →
      body ≠ [] →
      (handleManualCheckVJ f (FetchResult.ok body) isAuto).autoHoldInvoked
        = false ∧
      (handleManualCheckVJ f (FetchResult.ok body) isAuto).notification
        = (if isAuto then NotifKind.silent else NotifKind.priceUnchanged)) ∧
    (f.current_price = some p → 0 < p → farePrice mv = p → f.segments ≠ [] →
      (handleCheckVNAPrice f (FetchResult.ok (mv :: rest)) isAuto).autoHoldInvoked
        = false ∧
      (handleCheckVNAPrice f (FetchResult.ok (mv :: rest)) isAuto).notification
        = (if isAuto then NotifKind.silent else NotifKind.priceUnchanged)) := by
  constructor
  · intro hp hsel hfare hne
    have hbe : body.isEmpty = false := by
      cases body with
      | nil => exact absurd rfl hne
      | cons a l => rfl
    have hdrop : vjDropOnStored f.current_price (farePrice m) = false := by
      rw [hp, hfare]
      simp [vjDropOnStored, lt_irrefl]
    have hfz : vjFirstOrZero f.current_price (farePrice m) = false := by
      rw [hp, hfare]
      by_cases hp0 : p = 0
      · subst hp0; simp [vjFirstOrZero]
      · simp [vjFirstOrZero, hp0]
    simp only [handleManualCheckVJ, hbe, Bool.false_eq_true, if_false, hsel,
      hdrop, hfz, Bool.or_false, Bool.and_false, Bool.false_and]
    refine ⟨trivial, ?_⟩
    rw [hp, hfare]
    simp [vjNotify, sub_self]
  · intro hp hpos hfare hseg
    obtain ⟨s, ss, hs⟩ := List.exists_cons_of_ne_nil hseg
    have hnz : ¬ (farePrice mv = 0) := by rw [hfare]; omega
    have hd1 : ¬ (farePrice mv - p < 0) := by rw [hfare]; omega
    have hd2 : ¬ (0 < farePrice mv - p) := by rw [hfare]; omega
    simp only [handleCheckVNAPrice, hs, List.isEmpty_cons, Bool.false_eq_true,
      if_false, hnz, hp, hpos, if_true, hd1, hd2]
    exact ⟨trivial, trivial⟩

/-- C8 witness: stored price 90 with a VJ quote of 90, and stored price 100
with a VNA quote of 100, both classify as unchanged with no auto-hold. -/
theorem C8_equal_price_idempotent_witness :
    ((handleManualCheckVJ vj90Flight (FetchResult.ok [o90]) false).autoHoldInvoked
        = false ∧
      (handleManualCheckVJ vj90Flight (FetchResult.ok [o90]) false).notification
        = NotifKind.priceUnchanged) ∧
    ((handleCheckVNAPrice vnaFlight100 (FetchResult.ok [o100]) false).autoHoldInvoked
        = false ∧
      (handleCheckVNAPrice vnaFlight100 (FetchResult.ok [o100]) false).notification
        = NotifKind.priceUnchanged) := by
  constructor
  · have h := (C8_equal_price_idempotent vj90Flight [o90] [] o90 o90 false 90).1
      (by rfl) (by decide) rfl (by simp)
    simpa using h
  · have h := (C8_equal_price_idempotent vnaFlight100 [] [] o100 o100 false 100).2
      (by rfl) (by norm_num) rfl (by simp [vnaFlight100])
    simpa using h

/-- A VJ watch pinned to an exact 08:00 departure. -/
def c6Flight : MonitoredFlight :=
  { baseFlight with departure_time := some "08:00" }

/-- An 08:00 quote priced 500. -/
def oA : FlightOption := mkOption (some 500) (some "08:00") none

/-- An 08:00 quote priced 300. -/
def oB : FlightOption := mkOption (some 300) (some "08:00") none

/-- The cheapest-fold of the VJ selection either returns its seed or an
element of the folded list. -/
theorem foldl_cheapest_mem (l : List FlightOption) (a : FlightOption) :
    l.foldl (fun c x => if fareD x < fareD c then x else c) a = a ∨
    l.foldl (fun c x => if fareD x < fareD c then x else c) a ∈ l := by
  induction l generalizing a with
  | nil => exact Or.inl rfl
  | cons h t ih =>
    simp only [List.foldl_cons]
    rcases ih (if fareD h < fareD a then h else a) with hcase | hcase
    · rw [hcase]
      by_cases hlt : fareD h < fareD a
      · rw [if_pos hlt]; exact Or.inr (List.mem_cons_self h t)
      · rw [if_neg hlt]; exact Or.inl rfl
    · exact Or.inr (List.mem_cons_of_mem h hcase)

/-- The cheapest-fold of the VJ selection is a lower bound for its seed and
for every fare in the folded list. -/
theorem foldl_cheapest_le (l : List FlightOption) (a : FlightOption) :
    fareD (l.foldl (fun c x => if fareD x < fareD c then x else c) a) ≤ fareD a ∧
    ∀ x ∈ l,
      fareD (l.foldl (fun c x => if fareD x < fareD c then x else c) a) ≤ fareD x := by
  induction l generalizing a with
  | nil => exact ⟨le_refl _, by simp⟩
  | cons h t ih =>
    simp only [List.foldl_cons]
    obtain ⟨ih1, ih2⟩ := ih (if fareD h < fareD a then h else a)
    have hstep_a : fareD (if fareD h < fareD a then h else a) ≤ fareD a := by
      by_cases hlt : fareD h < fareD a
      · rw [if_pos hlt]; omega
      · rw [if_neg hlt]
    have hstep_h : fareD (if fareD h < fareD a then h else a) ≤ fareD h := by
      by_cases hlt : fareD h < fareD a
      · rw [if_pos hlt]
      · rw [if_neg hlt]; omega
    refine ⟨le_trans ih1 hstep_a, ?_⟩
    intro x hx
    rcases List.mem_cons.mp hx with hx | hx
    · subst hx; exact le_trans ih1 hstep_h
    · exact ih2 x hx

/-- The min-fold of the edge function is a lower bound for its seed and for
every fare in the folded list. -/
theorem foldl_min_le (t : List FlightOption) (a : Int) :
    t.foldl (fun acc o => min acc (farePrice o)) a ≤ a ∧
    ∀ x ∈ t, t.foldl (fun acc o => min acc (farePrice o)) a ≤ farePrice x := by
  induction t generalizing a with
  | nil => exact ⟨le_refl _, by simp⟩
  | cons h t ih =>
    simp only [List.foldl_cons]
    obtain ⟨ih1, ih2⟩ := ih (min a (farePrice h))
    refine ⟨le_trans ih1 (min_le_left _ _), ?_⟩
    intro x hx
    rcases List.mem_cons.mp hx with hx | hx
    · subst hx; exact le_trans ih1 (min_le_right _ _)
    · exact ih2 x hx

/-- C6 counterexample: with an exact 08:00 time and two matching results
priced 500 then 300, the interactive VJ check takes the first (500) while
the background edge function returns the minimum (300) — so "taking the
first when multiple remain" is false of the edge function's check. -/
theorem C6_counterexample :
    selectVJ c6Flight [oA, oB] = some oA ∧ farePrice oA = 500 ∧
    checkVJPrice c6Flight (FetchResult.ok [oA, oB]) = some 300 := by
  refine ⟨by decide, rfl, by decide⟩

/-- C6 amended: the interactive VJ check selects the first exact-time match
when a time is pinned and a globally cheapest result otherwise; the
background edge function filters by departure time only — its result is
independent of the return time — and returns a lower bound of (the minimum
over) the fares of the remaining results rather than the first. -/
theorem C6_matching_amended (f : MonitoredFlight) (body : List FlightOption)
    (m : FlightOption) (rt : Option String) :
    (vjTimed f = true →
      selectVJ f body = (body.filter (fun o => vjTimeMatch f o)).head?) ∧
    (vjTimed f = false → selectVJ f body = some m →
      m ∈ body ∧ ∀ x ∈ body, fareD m ≤ fareD x) ∧
    (∀ n, checkVJPrice f (FetchResult.ok body) = some n →
      ∀ x ∈ body.filter (fun o => ckTimeMatch f o), n ≤ farePrice x) ∧
    (checkVJPrice { f with return_time := rt } (FetchResult.ok body)
      = checkVJPrice f (FetchResult.ok body)) := by
  refine ⟨?_, ?_, ?_, ?_⟩
  · intro ht
    simp [selectVJ, ht]
  · intro ht hsel
    simp only [selectVJ, ht, Bool.false_eq_true, if_false] at hsel
    cases body with
    | nil => exact absurd hsel (by simp)
    | cons h t =>
      have hm : (h :: t).foldl
          (fun c x => if fareD x < fareD c then x else c) h = m := by
        simpa using hsel
      constructor
      · rcases foldl_cheapest_mem (h :: t) h with hcase | hcase
        · rw [hm] at hcase; rw [hcase]; exact List.mem_cons_self h t
        · rw [hm] at hcase; exact hcase
      · intro x hx
        obtain ⟨h1, h2⟩ := foldl_cheapest_le (h :: t) h
        rw [hm] at h2
        exact h2 x hx
  · intro n hck
    simp only [checkVJPrice] at hck
    by_cases hbe : body.isEmpty
    · rw [if_pos hbe] at hck; exact absurd hck (by simp)
    · rw [if_neg hbe] at hck
      revert hck
      cases hfil : body.filter (fun o => ckTimeMatch f o) with
      | nil => intro hck; exact absurd hck (by simp)
      | cons h t =>
        intro hck x hx
        have hn : t.foldl (fun acc o => min acc (farePrice o)) (farePrice h)
            = n := by simpa using hck
        obtain ⟨h1, h2⟩ := foldl_min_le t (farePrice h)
        rcases List.mem_cons.mp hx with hx | hx
        · subst hx; rw [← hn]; exact h1
        · rw [← hn]; exact h2 x hx
  · rfl

/-- C6 amended witness: the fixtures exercise the timed head-of-filter
equation, the cheapest selection, and the edge function's lower bound. -/
theorem C6_matching_amended_witness :
    (selectVJ c6Flight [oA, oB]
      = (([oA, oB]).filter (fun o => vjTimeMatch c6Flight o)).head?) ∧
    (oB ∈ [oA, oB] ∧ ∀ x ∈ [oA, oB], fareD oB ≤ fareD x) ∧
    (∀ x ∈ ([oA, oB]).filter (fun o => ckTimeMatch c6Flight o),
      (300 : Int) ≤ farePrice x) := by
  have h1 := (C6_matching_amended c6Flight [oA, oB] oB none).1 (by decide)
  have h2 := (C6_matching_amended baseFlight [oA, oB] oB none).2.1
    (by decide) (by decide)
  have h3 := (C6_matching_amended c6Flight [oA, oB] oB none).2.2.1 300
    (by decide)
  exact ⟨h1, h2, h3⟩

/-- Positivity of the interval in milliseconds. -/
theorem intervalMs_pos (i : Nat) (hi : 0 < i) : (0 : Int) < intervalMs i := by
  unfold intervalMs
  have h0 : (0 : Int) < (i : Int) := by exact_mod_cast hi
  positivity

/-- The page's percentage progress reaches 100 exactly when the elapsed time
reaches the interval. -/
theorem progress_ge_100_iff (t now : Int) (i : Nat) (hi : 0 < i) :
    (100 : ℚ) ≤ calculateProgress (some t) i now ↔ intervalMs i ≤ now - t := by
  have hIpos : (0 : ℚ) < ((intervalMs i : Int) : ℚ) := by
    exact_mod_cast intervalMs_pos i hi
  unfold calculateProgress
  rw [le_min_iff]
  simp only [le_refl, and_true]
  rw [div_mul_eq_mul_div, le_div_iff₀ hIpos]
  constructor
  · intro h
    have h2 : ((intervalMs i : Int) : ℚ) ≤ ((now - t : Int) : ℚ) := by
      push_cast at h ⊢
      nlinarith
    exact_mod_cast h2
  · intro h
    have h2 : ((intervalMs i : Int) : ℚ) ≤ ((now - t : Int) : ℚ) := by
      exact_mod_cast h
    nlinarith

/-- Scaling identity between the page's percentage progress and the
fractional form `min (elapsed / interval) 1`. -/
theorem min_mul_hundred (x : ℚ) : min (x * 100) 100 = 100 * min x 1 := by
  rcases le_total x 1 with h | h
  · rw [min_eq_left (by linarith), min_eq_left h]; ring
  · rw [min_eq_right (by linarith), min_eq_right h]; ring

/-- C7: an inactive watch is never selected by any due test; the page-entry
test agrees with the background edge function's test; a watch is due
exactly when it is active and was never checked or the elapsed time reached
the interval; the per-second tick selects only due watches; and the UI
progress is 0 before the first check and otherwise 100 times the elapsed
share of the interval capped at 1. -/
theorem C7_due_selection (f : MonitoredFlight) (now : Int)
    (hi : 0 < f.check_interval_minutes) :
    (f.is_active = false → entryShouldCheck f now = false ∧
      edgeSelects f now = false ∧ ∀ c, tickSelects f now c = false) ∧
    (entryShouldCheck f now = edgeSelects f now) ∧
    (edgeSelects f now = true ↔
      (f.is_active = true ∧ (f.last_checked_at = none ∨
        ∃ t, f.last_checked_at = some t ∧
          intervalMs f.check_interval_minutes ≤ now - t))) ∧
    (∀ c, tickSelects f now c = true → edgeSelects f now = true) ∧
    (calculateProgress none f.check_interval_minutes now = 0) ∧
    (∀ t, calculateProgress (some t) f.check_interval_minutes now =
      100 * min (((now - t : Int) : ℚ) /
        ((intervalMs f.check_interval_minutes : Int) : ℚ)) 1) := by
  refine ⟨?_, ?_, ?_, ?_, rfl, ?_⟩
  · intro ha
    refine ⟨?_, ?_, ?_⟩
    · simp [entryShouldCheck, ha]
    · simp [edgeSelects, ha]
    · intro c; simp [tickSelects, ha]
  · cases ha : f.is_active with
    | false => simp [entryShouldCheck, edgeSelects, ha]
    | true =>
      cases hl : f.last_checked_at with
      | none => simp [entryShouldCheck, edgeSelects, ha, hl]
      | some t =>
        simp only [entryShouldCheck, edgeSelects, ha, hl, Option.isNone_some,
          Bool.false_or, Bool.true_and]
        exact decide_eq_decide.mpr (progress_ge_100_iff t now _ hi)
  · cases ha : f.is_active with
    | false => simp [edgeSelects, ha]
    | true =>
      cases hl : f.last_checked_at with
      | none => simp [edgeSelects, ha, hl]
      | some t =>
        simp only [edgeSelects, ha, hl, Bool.true_and, decide_eq_true_eq]
        constructor
        · intro h; exact ⟨trivial, Or.inr ⟨t, rfl, h⟩⟩
        · rintro ⟨-, h | ⟨t', ht', h⟩⟩
          · exact absurd h (by simp)
          · injection ht' with ht2
            subst ht2
            exact h
  · intro c hc
    simp only [tickSelects, Bool.and_eq_true, Option.isSome_iff_exists,
      decide_eq_true_eq] at hc
    obtain ⟨⟨⟨ha, hcn⟩, t, ht⟩, hp⟩ := hc
    rw [ht] at hp
    simp only [edgeSelects, ha, ht, Bool.true_and]
    exact decide_eq_true ((progress_ge_100_iff t now _ hi).mp hp)
  · intro t
    unfold calculateProgress
    exact min_mul_hundred _

/-- C7 witness: a watch last checked at time 0 with a 5-minute interval is
due at 300000 ms, the two due tests agree, and the fresh-watch progress
is 0. -/
theorem C7_due_selection_witness :
    (0 : Nat) < ({ baseFlight with last_checked_at := some 0 } :
      MonitoredFlight).check_interval_minutes ∧
    edgeSelects { baseFlight with last_checked_at := some 0 } 300000 = true ∧
    entryShouldCheck { baseFlight with last_checked_at := some 0 } 300000
      = edgeSelects { baseFlight with last_checked_at := some 0 } 300000 ∧
    calculateProgress none 5 300000 = 0 := by
  have h := C7_due_selection { baseFlight with last_checked_at := some 0 }
    300000 (by decide)
  exact ⟨by decide, h.2.2.1.mpr ⟨rfl, Or.inr ⟨0, rfl, by decide⟩⟩,
    h.2.1, h.2.2.2.2.1⟩

/-- A list of length at most one containing `w` is exactly `[w]`. -/
theorem length_le_one_mem_eq (l : List String) (w : String)
    (hlen : l.length ≤ 1) (hm : w ∈ l) : l = [w] := by
  cases l with
  | nil => simp at hm
  | cons a t =>
    cases t with
    | nil =>
      simp only [List.mem_singleton] at hm
      rw [hm]
    | cons b t2 => simp at hlen

/-- Invariant of the automatic-trigger-only scheduler: whenever the
`checkingFlightId` slot is empty no cycle is running, and at most one cycle
is ever in flight. -/
theorem autoSched_invariant (s : SchedState)
    (h : Relation.ReflTransGen AutoSchedStep schedInit s) :
    (s.checkingFlightId = none → s.inFlight = []) ∧ s.inFlight.length ≤ 1 := by
  induction h with
  | refl => exact ⟨fun _ => rfl, by simp [schedInit]⟩
  | @tail b c hab hbc ih =>
    cases hbc with
    | autoStart w _ hcfi =>
      have he : b.inFlight = [] := ih.1 hcfi
      refine ⟨fun hc => absurd hc (by simp), ?_⟩
      simp [he]
    | finish w _ hmem =>
      have hsing : b.inFlight = [w] := length_le_one_mem_eq _ _ ih.2 hmem
      refine ⟨fun _ => ?_, ?_⟩ <;> simp [hsing]

/-- C5 counterexample: with the single-slot guard of the code (the refresh
button for `w` is disabled only while `checkingFlightId === w`, and
automatic triggers need the slot empty), interleaving manual triggers for
two distinct watches reaches a state where two check cycles for the same
watch id `"w1"` are concurrently in flight — the claimed mutual exclusion
per watch id does not hold. -/
theorem C5_counterexample :
    ∃ s : SchedState, Relation.ReflTransGen SchedStep schedInit s ∧
      2 ≤ s.inFlight.count "w1" := by
  refine ⟨{ checkingFlightId := some "w1", inFlight := ["w1", "w2", "w1"] },
    ?_, by decide⟩
  have h1 : SchedStep schedInit
      { checkingFlightId := some "w1", inFlight := ["w1"] } :=
    SchedStep.manualStart "w1" schedInit (by decide)
  have h2 : SchedStep { checkingFlightId := some "w1", inFlight := ["w1"] }
      { checkingFlightId := some "w2", inFlight := ["w2", "w1"] } :=
    SchedStep.manualStart "w2" _ (by decide)
  have h3 : SchedStep { checkingFlightId := some "w2", inFlight := ["w2", "w1"] }
      { checkingFlightId := some "w1", inFlight := ["w1", "w2", "w1"] } :=
    SchedStep.manualStart "w1" _ (by decide)
  exact Relation.ReflTransGen.tail
    (Relation.ReflTransGen.tail (Relation.ReflTransGen.single h1) h2) h3

/-- C5 amended: the guard is a single slot — automatic triggers are dropped
whenever any check is recorded in flight, and a manual trigger for `w` is
dropped only while `w` itself is the recorded check.  Under automatic
triggers alone at most one check cycle is in flight at any time, hence
never two for the same watch id; with interleaved manual triggers for
distinct watches the slot can be overwritten and the per-watch exclusion
fails (see the counterexample). -/
theorem C5_auto_guard_amended (s : SchedState)
    (h : Relation.ReflTransGen AutoSchedStep schedInit s) :
    s.inFlight.length ≤ 1 ∧ ∀ w, s.inFlight.count w ≤ 1 := by
  have hinv := autoSched_invariant s h
  exact ⟨hinv.2, fun w => le_trans (List.count_le_length w s.inFlight) hinv.2⟩

/-- C5 amended witness: the state after one automatic dispatch is reachable
and satisfies the bound. -/
theorem C5_auto_guard_amended_witness :
    ({ checkingFlightId := some "w1", inFlight := ["w1"] } :
      SchedState).inFlight.length ≤ 1 ∧
    ∀ w, ({ checkingFlightId := some "w1", inFlight := ["w1"] } :
      SchedState).inFlight.count w ≤ 1 :=
  C5_auto_guard_amended { checkingFlightId := some "w1", inFlight := ["w1"] }
    (Relation.ReflTransGen.single
      (AutoSchedStep.autoStart "w1" schedInit rfl))

end AeroTicketing
